import Mathlib

/-!
Verification of the `regtest` interactive regex-testing REPL
(`src/main.rs`) against its natural-language specification.

The program is a two-level prompt loop over a bitflag configuration.
We embed the configuration record (`bitflags! Config: u32`), the menu
dispatcher `options_menu`, one invocation of `regex_prompt`, one
iteration of the inner test-prompt loop `prompt`, the history-file
plumbing `with_history_file`, the CLI-flag handling of `main`, and the
outer `main` loop as a state machine over a finite list of input lines.

The regex engine itself is an external dependency (the `regex` crate);
it appears in the embedding as an abstract compile oracle
`String → Except String RegexM`, and for the concrete echo test we
instantiate it with a small matcher for the fragment the spec uses
(literal characters and the `.` metacharacter, unanchored search).
Wall-clock time is likewise abstracted into a displayed-duration
parameter.
-/

namespace Regtest

/-- The configuration record: `bitflags! { flags Config: u32 { ... } }`.
`bits` is the underlying `u32` field (modelled as `Nat`; every reachable
Rust state has `bits < 2^32`, and the theorems quantify over all of
`Nat`, a superset). -/
structure Config where
  bits : Nat
deriving DecidableEq, Repr

/-- `const VERBOSE_ERRORS = 0b00000001`. -/
def VERBOSE_ERRORS : Config := ⟨1⟩

/-- `const CAPTURE_GROUPS = 0b00000010`. -/
def CAPTURE_GROUPS : Config := ⟨2⟩

/-- `const COMPILE_TIME = 0b00000100`. -/
def COMPILE_TIME : Config := ⟨4⟩

/-- bitflags `contains`: `(self.bits & other.bits) == other.bits`. -/
def Config.contains (c f : Config) : Bool := c.bits &&& f.bits == f.bits

/-- bitflags `toggle`: `self.bits ^= other.bits`. -/
def Config.toggle (c f : Config) : Config := ⟨c.bits ^^^ f.bits⟩

/-- bitflags `insert`: `self.bits |= other.bits`. -/
def Config.insert (c f : Config) : Config := ⟨c.bits ||| f.bits⟩

/-- bitflags `remove`: `self.bits &= !other.bits` (complement on `u32`). -/
def Config.remove (c f : Config) : Config :=
  ⟨c.bits &&& (4294967295 ^^^ f.bits)⟩

/-- bitflags bitwise-or, used by `Config::default`. -/
def Config.union (a b : Config) : Config := ⟨a.bits ||| b.bits⟩

/-- `impl Default for Config { fn default() -> Config { VERBOSE_ERRORS | COMPILE_TIME } }`. -/
def Config.default : Config := Config.union VERBOSE_ERRORS COMPILE_TIME

/-- The `HELP` string constant. -/
def HELP : String :=
  ":t - Toggle compile time display\n:g - Toggle capture groups display\n:v - Toggle verbose errors\n:h - Print this menu\n:q - Quit"

/-- The `Action` enum: what may happen after a menu interaction. -/
inductive Action where
  | Continue
  | Loop
  | ToRegexPrompt
  | Exit
deriving DecidableEq, Repr

/-- `options_menu(line, &mut config)`: check whether `line` is a menu
command.  The Rust function mutates `config` in place and writes
messages to stderr; here it returns the action, the updated
configuration and the list of lines written. -/
def options_menu (line : String) (config : Config) : Action × Config × List String :=
  if line = ":q" then
    (Action.Exit, config, [])
  else if line = ":v" then
    let c := config.toggle VERBOSE_ERRORS
    (Action.Loop, c,
      [if c.contains VERBOSE_ERRORS then "Verbose errors: on" else "Verbose errors: off"])
  else if line = ":t" then
    let c := config.toggle COMPILE_TIME
    (Action.Loop, c,
      [if c.contains COMPILE_TIME then "Show compile time: on" else "Show compile time: off"])
  else if line = ":b" then
    (Action.ToRegexPrompt, config, [])
  else if line = ":g" then
    let c := config.toggle CAPTURE_GROUPS
    (Action.Loop, c,
      [if c.contains CAPTURE_GROUPS then "Show capture groups: on" else "Show capture groups: off"])
  else if line = ":h" ∨ line = ":?" then
    (Action.Loop, config, [HELP])
  else
    (Action.Continue, config, [])

/-- The seven whole-line menu command strings recognised by `options_menu`. -/
def menuCommands : List String := [":q", ":v", ":t", ":b", ":g", ":h", ":?"]

/-- A compiled regex as the program sees it: the `regex` crate is an
external dependency, so a compiled `Regex` is abstracted to its source
text, an `is_match` test and a `captures` query (group 0 first, `none`
when the regex does not match, and `none` entries for unmatched groups). -/
structure RegexM where
  source : String
  isMatch : String → Bool
  captures : String → Option (List (Option String))

/-- Outcome of one call to `regex_prompt`: either it returns a boolean
to the `main` loop without entering the test prompt, or the regex
compiled and control proceeds to the inner `prompt` loop. -/
inductive PromptOutcome where
  | done (result : Bool)
  | enterTest (reg : RegexM)

/-- One call to `regex_prompt` (`src/main.rs` lines 136-178) on the line
just read.  Parameters: `compile` is the external `Regex::new`;
`durNs` is the value the source prints for the compile duration
(`num_nanoseconds`, falling back to `num_milliseconds` on overflow —
real time is outside the embedding).  Returns the outcome, the updated
configuration, the stderr lines written, and an instrumentation flag
recording whether `Regex::new` was invoked on the line. -/
def regex_prompt_step (compile : String → Except String RegexM) (durNs : Int)
    (line : String) (config : Config) :
    PromptOutcome × Config × List String × Bool :=
  match options_menu line config with
  | (Action.Continue, c, out) =>
    match compile line with
    | Except.error e =>
      if c.contains VERBOSE_ERRORS then
        (PromptOutcome.done true, c, out ++ ["Error compiling regex: " ++ e], true)
      else
        (PromptOutcome.done true, c,
          out ++ ["Failed to compile regex", "Turn on verbose errors with :v"], true)
    | Except.ok r =>
      if c.contains COMPILE_TIME then
        (PromptOutcome.enterTest r, c,
          out ++ ["Regex compiled in " ++ toString durNs ++ "ns"], true)
      else
        (PromptOutcome.enterTest r, c, out, true)
  | (Action.ToRegexPrompt, c, out) => (PromptOutcome.done true, c, out, false)
  | (Action.Loop, c, out) => (PromptOutcome.done true, c, out, false)
  | (Action.Exit, c, out) => (PromptOutcome.done false, c, out, false)

/-- Outcome of one iteration of the `loop` inside `prompt`:
`exit` is `return false`, `toRegex` is `return true`, and `again` means
the loop continues with the next line. -/
inductive TestOutcome where
  | exit
  | toRegex
  | again
deriving DecidableEq, Repr

/-- One iteration of the test-prompt loop in `prompt` (`src/main.rs`
lines 187-224) on the line just read.  Returns the loop outcome, the
updated configuration, the stderr lines written, and an instrumentation
flag recording whether the line was tested against the regex
(`captures` or `is_match`). -/
def prompt_step (reg : RegexM) (line : String) (config : Config) :
    TestOutcome × Config × List String × Bool :=
  match options_menu line config with
  | (Action.Exit, c, out) => (TestOutcome.exit, c, out, false)
  | (Action.Loop, c, out) => (TestOutcome.again, c, out, false)
  | (Action.ToRegexPrompt, c, out) => (TestOutcome.toRegex, c, out, false)
  | (Action.Continue, c, out) =>
    if c.contains CAPTURE_GROUPS then
      match reg.captures line with
      | none => (TestOutcome.again, c, out ++ ["Failed to match"], true)
      | some caps =>
        (TestOutcome.again, c,
          out ++ ["Captures:"] ++
            caps.enum.map (fun p => toString p.1 ++ ": " ++ p.2.getD "None"), true)
    else
      if reg.isMatch line then
        (TestOutcome.again, c, out ++ ["Matched"], true)
      else
        (TestOutcome.again, c, out ++ ["Failed to match"], true)

/-- Which prompt the session is currently showing: the regex-input
prompt of `regex_prompt`, or the test prompt of `prompt` holding the
compiled regex. -/
inductive Mode where
  | regexM
  | testM (reg : RegexM)

/-- Process one input line in the current mode, combining
`regex_prompt_step` and `prompt_step` with the control flow of `main`'s
loop: `none` means the session ends (`regex_prompt`, or `prompt` through
it, returned `false`), `some` gives the next mode. -/
def session_line (compile : String → Except String RegexM) (durNs : Int)
    (mode : Mode) (line : String) (config : Config) :
    Option Mode × Config × List String :=
  match mode with
  | Mode.regexM =>
    match regex_prompt_step compile durNs line config with
    | (PromptOutcome.done true, c, out, _) => (some Mode.regexM, c, out)
    | (PromptOutcome.done false, c, out, _) => (none, c, out)
    | (PromptOutcome.enterTest r, c, out, _) => (some (Mode.testM r), c, out)
  | Mode.testM reg =>
    match prompt_step reg line config with
    | (TestOutcome.exit, c, out, _) => (none, c, out)
    | (TestOutcome.toRegex, c, out, _) => (some Mode.regexM, c, out)
    | (TestOutcome.again, c, out, _) => (some (Mode.testM reg), c, out)

/-- Result of running the `main` loop on a finite script of input
lines: final configuration, all stderr lines written, whether the loop
terminated by `regex_prompt` returning `false` (as opposed to the
script running out), and the input lines never read. -/
structure SessionResult where
  config : Config
  output : List String
  exited : Bool
  leftover : List String
deriving Repr

/-- The `main` loop (`src/main.rs` lines 297-301) run over a finite
script of input lines, starting in the given mode. -/
def run_session (compile : String → Except String RegexM) (durNs : Int) :
    List String → Mode → Config → SessionResult
  | [], _, c => ⟨c, [], false, []⟩
  | line :: rest, mode, c =>
    match session_line compile durNs mode line c with
    | (none, c2, out) => ⟨c2, out, true, rest⟩
    | (some m2, c2, out) =>
      let r := run_session compile durNs rest m2 c2
      ⟨r.config, out ++ r.output, r.exited, r.leftover⟩

/-- A token of the tiny regex fragment used by the spec's echo test:
a literal character or the `.` metacharacter. -/
inductive Tok where
  | lit (c : Char)
  | dot
deriving DecidableEq, Repr

/-- Does one token match one character? `.` matches any character. -/
def tokMatches : Tok → Char → Bool
  | Tok.lit c, d => c = d
  | Tok.dot, _ => true

/-- Match the whole pattern against a prefix of the character list. -/
def matchHere : List Tok → List Char → Bool
  | [], _ => true
  | _ :: _, [] => false
  | t :: ts, c :: cs => tokMatches t c && matchHere ts cs

/-- Unanchored search, as the `regex` crate's `is_match` does: try the
pattern at every starting position. -/
def regexSearch (p : List Tok) : List Char → Bool
  | [] => matchHere p []
  | c :: cs => matchHere p (c :: cs) || regexSearch p cs

/-- Leftmost match of the pattern: the matched substring at the first
position where the whole pattern matches. -/
def firstMatch (p : List Tok) : List Char → Option (List Char)
  | [] => if matchHere p [] then some [] else none
  | c :: cs =>
    if matchHere p (c :: cs) then some ((c :: cs).take p.length)
    else firstMatch p cs

/-- The token list of the pattern `a.c`. -/
def patADotC : List Tok := [Tok.lit 'a', Tok.dot, Tok.lit 'c']

/-- Model of the external regex crate's compiled regex for the pattern
`a.c` from the spec's echo test: literals and `.`, unanchored search;
the pattern has no capture groups, so `captures` yields only group 0. -/
def regexADotC : RegexM where
  source := "a.c"
  isMatch := fun s => regexSearch patADotC s.data
  captures := fun s =>
    (firstMatch patADotC s.data).map (fun m => [some (String.mk m)])

/-- The platform cases distinguished by `cfg!` in `with_history_file`. -/
inductive Platform where
  | unix
  | windows
  | other
deriving DecidableEq, Repr

/-- Result of one history-file interaction: whether the program
panicked, and the lines printed. -/
structure HistoryOutcome where
  panicked : Bool
  output : List String
deriving DecidableEq, Repr

/-- `with_history_file` (`src/main.rs` lines 233-259): determine the
history-file path from the platform and the relevant environment
variable (`HOME` on unix, `APPDATA` on windows) and hand it to the
closure `f`; print a warning when the path cannot be determined. -/
def with_history_file (platform : Platform) (envVar : Option String)
    (f : String → HistoryOutcome) : HistoryOutcome :=
  match platform with
  | Platform.unix =>
    match envVar with
    | some home => f (home ++ "/.regtest_history")
    | none => ⟨false, ["Failed to find history file"]⟩
  | Platform.windows =>
    match envVar with
    | some appdata => f (appdata ++ "/Roaming/regtest_history")
    | none => ⟨false, ["Failed to find history"]⟩
  | Platform.other =>
    ⟨false, ["Warning: unknown platform. Unable to determine location for history file."]⟩

/-- The closure `main` passes for loading history
(`editor.load_history(path);`, line 293): the `Result` is discarded, so
neither outcome panics or prints. -/
def load_history_closure (loadRes : String → Except String Unit)
    (path : String) : HistoryOutcome :=
  match loadRes path with
  | Except.ok _ => ⟨false, []⟩
  | Except.error _ => ⟨false, []⟩

/-- The closure `main` passes for saving history
(`editor.save_history(path).unwrap();`, line 304): `.unwrap()` panics
when saving fails. -/
def save_history_closure (saveRes : String → Except String Unit)
    (path : String) : HistoryOutcome :=
  match saveRes path with
  | Except.ok _ => ⟨false, []⟩
  | Except.error _ => ⟨true, []⟩

/-- The clap argument matches `main` can query: whether each of the
three declared flags was present on the command line.  The third flag
is declared with id `no-comple-time` (sic) and long name
`--no-compile-time`. -/
structure ArgMatches where
  no_verbose_errors : Bool
  capture : Bool
  no_comple_time : Bool
deriving DecidableEq, Repr

/-- The configuration `main` (`src/main.rs` lines 261-287) holds after
applying the CLI flags to `Config::default`.  Faithful to the source:
`main` queries `is_present` only for `no-verbose-errors` and `capture`;
the `no-comple-time` flag is declared but never consulted. -/
def main_config (m : ArgMatches) : Config :=
  let c := Config.default
  let c := if m.no_verbose_errors then c.remove VERBOSE_ERRORS else c
  let c := if m.capture then c.insert CAPTURE_GROUPS else c
  c

/-! Helper lemmas shared by the claim theorems. -/

/-- `contains` on a single-bit flag reads the corresponding bit. -/
theorem contains_two_pow (b i : Nat) :
    Config.contains ⟨b⟩ ⟨2 ^ i⟩ = b.testBit i := by
  simp only [Config.contains, Nat.and_two_pow]
  cases h : b.testBit i <;> simp
  exact fun h0 => absurd h0.symm (Nat.pos_iff_ne_zero.mp (Nat.pos_pow_of_pos i (by norm_num)))

/-- `contains VERBOSE_ERRORS` reads bit 0. -/
theorem contains_verbose (b : Nat) :
    Config.contains ⟨b⟩ VERBOSE_ERRORS = b.testBit 0 :=
  contains_two_pow b 0

/-- `contains CAPTURE_GROUPS` reads bit 1. -/
theorem contains_capture (b : Nat) :
    Config.contains ⟨b⟩ CAPTURE_GROUPS = b.testBit 1 :=
  contains_two_pow b 1

/-- `contains COMPILE_TIME` reads bit 2. -/
theorem contains_compile_time (b : Nat) :
    Config.contains ⟨b⟩ COMPILE_TIME = b.testBit 2 :=
  contains_two_pow b 2

/-- Toggling a flag whose bit `i` is clear leaves `contains` of the
single-bit flag `2^i` unchanged. -/
theorem contains_xor_other (b i f : Nat) (h : f.testBit i = false) :
    Config.contains ⟨b ^^^ f⟩ ⟨2 ^ i⟩ = Config.contains ⟨b⟩ ⟨2 ^ i⟩ := by
  rw [contains_two_pow, contains_two_pow, Nat.testBit_xor, h, Bool.xor_false]

/-- Toggling a flag whose bit `i` is set flips `contains` of the
single-bit flag `2^i`. -/
theorem contains_xor_self (b i f : Nat) (h : f.testBit i = true) :
    Config.contains ⟨b ^^^ f⟩ ⟨2 ^ i⟩ = !(Config.contains ⟨b⟩ ⟨2 ^ i⟩) := by
  rw [contains_two_pow, contains_two_pow, Nat.testBit_xor, h, Bool.xor_true]

/-- A line outside the seven command strings falls through to the
default branch of `options_menu`. -/
theorem options_menu_not_command {line : String} (h : line ∉ menuCommands)
    (c : Config) : options_menu line c = (Action.Continue, c, []) := by
  simp only [menuCommands, List.mem_cons, List.not_mem_nil, or_false, not_or] at h
  obtain ⟨h1, h2, h3, h4, h5, h6, h7⟩ := h
  simp [options_menu, h1, h2, h3, h4, h5, h6, h7]

/-- C9: Before any CLI flags are applied, the default configuration
(`Config::default`) has the verbose-errors and compile-time-display
toggles on and the capture-groups toggle off. -/
theorem default_config_toggles :
    Config.default.contains VERBOSE_ERRORS = true ∧
    Config.default.contains COMPILE_TIME = true ∧
    Config.default.contains CAPTURE_GROUPS = false := by
  decide

/-- C5: Each toggle command is an involution: for every configuration
state, processing the same toggle command (`:v`, `:t`, or `:g`) twice
through `options_menu` returns the configuration to its original
value. -/
theorem toggle_commands_involutive (c : Config) :
    (options_menu ":v" (options_menu ":v" c).2.1).2.1 = c ∧
    (options_menu ":t" (options_menu ":t" c).2.1).2.1 = c ∧
    (options_menu ":g" (options_menu ":g" c).2.1).2.1 = c := by
  obtain ⟨b⟩ := c
  refine ⟨?_, ?_, ?_⟩
  · show (⟨(b ^^^ 1) ^^^ 1⟩ : Config) = ⟨b⟩
    rw [Nat.xor_cancel_right]
  · show (⟨(b ^^^ 4) ^^^ 4⟩ : Config) = ⟨b⟩
    rw [Nat.xor_cancel_right]
  · show (⟨(b ^^^ 2) ^^^ 2⟩ : Config) = ⟨b⟩
    rw [Nat.xor_cancel_right]

/-- C4: The three configuration toggles are independent: each of `:v`,
`:t`, `:g` changes only its own flag (verbose errors, compile-time
display, capture groups respectively) and leaves the other two flags
unchanged; `:q`, `:b`, `:h`, `:?` leave the configuration unchanged,
and every line other than the three toggle commands leaves the
configuration unchanged. -/
theorem toggle_commands_frame (c : Config) (line : String) :
    ((options_menu ":v" c).2.1.contains VERBOSE_ERRORS = !(c.contains VERBOSE_ERRORS)) ∧
    ((options_menu ":v" c).2.1.contains CAPTURE_GROUPS = c.contains CAPTURE_GROUPS) ∧
    ((options_menu ":v" c).2.1.contains COMPILE_TIME = c.contains COMPILE_TIME) ∧
    ((options_menu ":t" c).2.1.contains COMPILE_TIME = !(c.contains COMPILE_TIME)) ∧
    ((options_menu ":t" c).2.1.contains VERBOSE_ERRORS = c.contains VERBOSE_ERRORS) ∧
    ((options_menu ":t" c).2.1.contains CAPTURE_GROUPS = c.contains CAPTURE_GROUPS) ∧
    ((options_menu ":g" c).2.1.contains CAPTURE_GROUPS = !(c.contains CAPTURE_GROUPS)) ∧
    ((options_menu ":g" c).2.1.contains VERBOSE_ERRORS = c.contains VERBOSE_ERRORS) ∧
    ((options_menu ":g" c).2.1.contains COMPILE_TIME = c.contains COMPILE_TIME) ∧
    ((options_menu ":q" c).2.1 = c) ∧
    ((options_menu ":b" c).2.1 = c) ∧
    ((options_menu ":h" c).2.1 = c) ∧
    ((options_menu ":?" c).2.1 = c) ∧
    ((options_menu line c).2.1 = c ∨ line = ":v" ∨ line = ":t" ∨ line = ":g") := by
  obtain ⟨b⟩ := c
  refine ⟨contains_xor_self b 0 1 (by decide), contains_xor_other b 1 1 (by decide),
    contains_xor_other b 2 1 (by decide), contains_xor_self b 2 4 (by decide),
    contains_xor_other b 0 4 (by decide), contains_xor_other b 1 4 (by decide),
    contains_xor_self b 1 2 (by decide), contains_xor_other b 0 2 (by decide),
    contains_xor_other b 2 2 (by decide), rfl, rfl, rfl, rfl, ?_⟩
  by_cases hv : line = ":v"
  · exact Or.inr (Or.inl hv)
  by_cases ht : line = ":t"
  · exact Or.inr (Or.inr (Or.inl ht))
  by_cases hg : line = ":g"
  · exact Or.inr (Or.inr (Or.inr hg))
  refine Or.inl ?_
  by_cases hmem : line ∈ menuCommands
  · simp only [menuCommands, List.mem_cons, List.not_mem_nil, or_false] at hmem
    rcases hmem with h | h | h | h | h | h | h <;>
      first
        | exact absurd h hv
        | exact absurd h ht
        | exact absurd h hg
        | (subst h; simp [options_menu])
  · rw [options_menu_not_command hmem]

/-- C10: Menu commands are recognized only by exact whole-line
equality: `options_menu` returns `Continue` exactly when the line
differs from all seven command strings, so any other line (such as
`:v` with a trailing space) is treated as regex source or test
input. -/
theorem options_menu_exact_match (line : String) (c : Config) :
    (options_menu line c).1 = Action.Continue ↔ line ∉ menuCommands := by
  constructor
  · intro h hmem
    simp only [menuCommands, List.mem_cons, List.not_mem_nil, or_false] at hmem
    rcases hmem with hq | hq | hq | hq | hq | hq | hq <;> subst hq <;>
      simp [options_menu] at h
  · intro h
    rw [options_menu_not_command h]

/-- C3: A line at the regex prompt that is not a menu command and
fails to compile makes `regex_prompt` report an error — a verbose
message containing the compile error when the verbose-errors toggle is
set, otherwise the terse two-line message — and return `true` (back to
the regex input prompt) with the configuration unchanged. -/
theorem regex_compile_failure_reports (compile : String → Except String RegexM)
    (durNs : Int) (line : String) (c : Config) (err : String)
    (hline : line ∉ menuCommands) (herr : compile line = Except.error err) :
    regex_prompt_step compile durNs line c =
      (PromptOutcome.done true, c,
        (if c.contains VERBOSE_ERRORS then ["Error compiling regex: " ++ err]
         else ["Failed to compile regex", "Turn on verbose errors with :v"]),
        true) := by
  unfold regex_prompt_step
  rw [options_menu_not_command hline, herr]
  by_cases h : c.contains VERBOSE_ERRORS <;> simp [h]

/-- Witness for C3: the line `)` with a compile oracle that rejects it,
under the default configuration (verbose errors on). -/
theorem regex_compile_failure_reports_witness :
    (")" ∉ menuCommands) ∧
    regex_prompt_step (fun _ => Except.error "unclosed group") 0 ")" Config.default =
      (PromptOutcome.done true, Config.default,
        ["Error compiling regex: unclosed group"], true) := by
  have hv : Config.default.contains VERBOSE_ERRORS = true := by decide
  have h := regex_compile_failure_reports (fun _ => Except.error "unclosed group") 0 ")"
    Config.default "unclosed group" (by decide) rfl
  rw [hv] at h
  exact ⟨by decide, by simpa using h⟩

/-- C6: With the compiled pattern `a.c` and the test input line `abc`,
capture-groups toggle off, one iteration of the test loop prints
`Matched` and continues the loop with the configuration unchanged. -/
theorem echo_test_matched (c : Config) (h : c.contains CAPTURE_GROUPS = false) :
    prompt_step regexADotC "abc" c = (TestOutcome.again, c, ["Matched"], true) := by
  have habc : ("abc" : String) ∉ menuCommands := by decide
  have hm : regexADotC.isMatch "abc" = true := by decide
  simp [prompt_step, options_menu_not_command habc c, h, hm]

/-- Witness for C6: the default configuration has capture groups off. -/
theorem echo_test_matched_witness :
    Config.default.contains CAPTURE_GROUPS = false ∧
    prompt_step regexADotC "abc" Config.default =
      (TestOutcome.again, Config.default, ["Matched"], true) :=
  ⟨by decide, echo_test_matched Config.default (by decide)⟩

/-- C7: Every line is dispatched through the menu first: the regex
prompt invokes `Regex::new` on the line, and the test prompt tests the
line against the regex, exactly when `options_menu` classifies the line
as `Continue` (not a menu command); a menu command is never compiled or
tested. -/
theorem menu_dispatch_first (compile : String → Except String RegexM) (durNs : Int)
    (line : String) (c : Config) (reg : RegexM) :
    (regex_prompt_step compile durNs line c).2.2.2 =
      decide ((options_menu line c).1 = Action.Continue) ∧
    (prompt_step reg line c).2.2.2 =
      decide ((options_menu line c).1 = Action.Continue) := by
  rcases hm : options_menu line c with ⟨a, c2, out⟩
  cases a
  case Continue =>
    constructor
    · cases hc : compile line <;>
        simp [regex_prompt_step, hm, hc] <;> split_ifs <;> rfl
    · simp only [prompt_step, hm]
      by_cases hg : c2.contains CAPTURE_GROUPS
      · cases hcap : reg.captures line <;> simp [hg, hcap]
      · by_cases hmatch : reg.isMatch line <;> simp [hg, hmatch]
  all_goals exact ⟨by simp [regex_prompt_step, hm], by simp [prompt_step, hm]⟩

/-- C8: Entering `:q` at either prompt ends the session: `options_menu`
returns `Exit` with no output and the configuration unchanged,
`regex_prompt` returns `false`, the test-prompt loop returns `false`,
and the `main` loop terminates at once, leaving the rest of the input
script unread. -/
theorem quit_ends_session (compile : String → Except String RegexM) (durNs : Int)
    (c : Config) (reg : RegexM) (mode : Mode) (rest : List String) :
    options_menu ":q" c = (Action.Exit, c, []) ∧
    regex_prompt_step compile durNs ":q" c = (PromptOutcome.done false, c, [], false) ∧
    prompt_step reg ":q" c = (TestOutcome.exit, c, [], false) ∧
    run_session compile durNs (":q" :: rest) mode c = ⟨c, [], true, rest⟩ := by
  refine ⟨rfl, rfl, rfl, ?_⟩
  cases mode <;> rfl

/-- C1 (code evaluated at the failing input): `main` never consults the
`no-comple-time` argument, so passing `--no-compile-time` leaves the
compile-time-display toggle set — the resulting configuration is the
unmodified default.  The other two flags behave as claimed:
`--no-verbose-errors` clears the verbose-errors toggle and
`-c`/`--capture` sets the capture-groups toggle. -/
theorem cli_no_compile_time_ignored :
    (∀ m : ArgMatches, main_config m = main_config ⟨m.no_verbose_errors, m.capture, false⟩) ∧
    (main_config ⟨false, false, true⟩).contains COMPILE_TIME = true ∧
    main_config ⟨false, false, true⟩ = Config.default ∧
    (main_config ⟨true, false, false⟩).contains VERBOSE_ERRORS = false ∧
    (main_config ⟨true, false, false⟩).contains COMPILE_TIME = true ∧
    (main_config ⟨true, false, false⟩).contains CAPTURE_GROUPS = false ∧
    (main_config ⟨false, true, false⟩).contains CAPTURE_GROUPS = true ∧
    (main_config ⟨false, true, false⟩).contains VERBOSE_ERRORS = true ∧
    (main_config ⟨false, true, false⟩).contains COMPILE_TIME = true :=
  ⟨fun _ => rfl, by decide, by decide, by decide, by decide, by decide, by decide,
    by decide, by decide⟩

/-- C2 (code evaluated at the failing input): a failure to locate the
history file only prints a warning, and a failure to load it is
silently ignored, but a failure to save it panics — `main` calls
`.unwrap()` on the result of `save_history`, contradicting the claim
(and `with_history_file`'s own doc comment, which promises no panic). -/
theorem history_save_failure_panics :
    (with_history_file Platform.unix (some "/home/user")
      (save_history_closure (fun _ => Except.error "Permission denied"))).panicked = true ∧
    (∀ f : String → HistoryOutcome, (with_history_file Platform.unix none f).panicked = false) ∧
    (∀ f : String → HistoryOutcome, (with_history_file Platform.windows none f).panicked = false) ∧
    (∀ f : String → HistoryOutcome, (with_history_file Platform.other none f).panicked = false) ∧
    (∀ loadRes : String → Except String Unit,
      (with_history_file Platform.unix (some "/home/user")
        (load_history_closure loadRes)).panicked = false) := by
  refine ⟨rfl, fun f => rfl, fun f => rfl, fun f => rfl, fun loadRes => ?_⟩
  show (load_history_closure loadRes ("/home/user" ++ "/.regtest_history")).panicked = false
  unfold load_history_closure
  cases loadRes ("/home/user" ++ "/.regtest_history") <;> rfl

end Regtest
